import Mathlib

/-!
Shallow embedding of the Cloudflare Worker in `src/index.js` (with the
configuration constants of `src/config.js`), covering the cache gate, the
content fetcher (`generateResponse`) and the request orchestrator (`fetch`).

The watermark-token resolver modules (`akamaiWmt.js`, `doveRunnerAes.js`,
`wmUtil.js`) are not part of the sources; the handler only consumes their
results, so they are abstracted as parameters (`Wmt`).  The edge cache and
the R2 object store are external services and are likewise parameters
(`cache : String → Option Response`, `store : String → R2Options → Option R2Obj`).
The handler result carries, next to the HTTP response, a record of the
externally observable effects (cache lookups, cache puts, store gets) and of
the resolved path, so that claims about "the cache is consulted", "an entry
is stored" or "no store access occurs" can be stated directly.
-/

namespace FwmEmbedder

/-! ### Structural counterparts of the JS string operations

The JS code uses `String.prototype.split`, `startsWith`, `endsWith` and the
case-insensitive name handling of `Headers`.  They are re-expressed here by
structural recursion on the character list so that concrete runs reduce. -/

/-- Split a character list on a separator character, keeping empty pieces,
as `"a/b".split('/')` does in JS. -/
def splitList (sep : Char) : List Char → List (List Char)
  | [] => [[]]
  | c :: cs =>
    if c = sep then [] :: splitList sep cs
    else
      match splitList sep cs with
      | r :: rs => (c :: r) :: rs
      | [] => [[c]]

/-- `s.split(sep)` of JS for a one-character separator. -/
def jsSplit (sep : Char) (s : String) : List String :=
  (splitList sep s.data).map (fun l => ⟨l⟩)

/-- `s.startsWith(p)` of JS. -/
def jsStartsWith (s p : String) : Bool :=
  p.data.isPrefixOf s.data

/-- `s.endsWith(p)` of JS. -/
def jsEndsWith (s p : String) : Bool :=
  p.data.isSuffixOf s.data

/-- Lower-case normalisation of a header name. -/
def lowerName (s : String) : String := ⟨s.data.map Char.toLower⟩

/-- HTTP header map, mirroring the JS `Headers` class: header names are
case-insensitive, one value per name.  Modelled as a total function from
lower-cased names to optional values. -/
def Headers : Type := String → Option String

/-- `headers.get(name)`: case-insensitive lookup, `none` when absent. -/
def Headers.get (h : Headers) (n : String) : Option String :=
  h (lowerName n)

/-- `headers.has(name)`. -/
def Headers.has (h : Headers) (n : String) : Bool :=
  (h.get n).isSome

/-- `headers.set(name, value)`: overwrite under the case-insensitive name. -/
def Headers.set (h : Headers) (n : String) (v : String) : Headers :=
  fun m => if m = lowerName n then some v else h m

/-- A fresh `new Headers()`. -/
def Headers.empty : Headers := fun _ => none

/-- JS truthiness of a `headers.get` result: `null` and the empty string are
falsy, every other string is truthy. -/
def jsTruthy : Option String → Bool
  | none => false
  | some s => s != ""

/-- JS falsiness of the resolver result `finalRequestPath`:
`undefined`/`null` (here `none`) and the empty string are falsy. -/
def jsFalsyPath : Option String → Bool
  | none => true
  | some s => s == ""

/-- The parts of a parsed `new URL(request.url)` the worker reads.
`origin` is the scheme-plus-authority (no path, no query);
`pathname` always starts with `/`; `search` is the query string. -/
structure Url where
  origin : String
  pathname : String
  search : String

/-- An incoming HTTP request, as the worker sees it. -/
structure Request where
  method : String
  url : Url
  headers : Headers

/-- An HTTP response: status, headers and an optional body
(`none` models a `null` body, as in `new Response(null, ...)`). -/
structure Response where
  status : Nat
  headers : Headers
  body : Option String

/-- The byte range reported by the object store on a partial read
(`object.range`).  Integer fields, as JS numbers. -/
structure R2Range where
  offset : Int
  length : Int

/-- An object returned by `env.FWM_BUCKER.get`.  `body = none` models an
object on which the `"body" in object` test fails (conditional match
satisfied, no body returned).  `httpMetadata` is what
`object.writeHttpMetadata(headers)` writes into the response headers. -/
structure R2Obj where
  body : Option String
  range : Option R2Range
  size : Int
  httpEtag : String
  httpMetadata : List (String × String)

/-- The options object passed to `env.FWM_BUCKER.get(key, r2Options)`:
`onlyIf` always carries the request headers; `range` carries them only when
the request has a (truthy) Range header. -/
structure R2Options where
  onlyIf : Headers
  range : Option Headers

/-- `config.prefixFolder` may be a single folder name or an array of them
(`checkWatermarkPath` branches on `Array.isArray`). -/
inductive PrefixFolderCfg where
  | single (s : String)
  | multi (l : List String)

/-- The `config` object of `src/config.js` (fields the worker reads or
passes to the resolvers). -/
structure Config where
  aesKey : String
  wmType : String
  availableInterval : Nat
  prefixFolder : PrefixFolderCfg
  wmtPublicKey : String
  wmtPassword : String

/-- The `CACHE_CONFIG` object shape of `src/config.js`. -/
structure CacheConfig where
  enabled : Bool
  ttl : Nat
  cacheableExtensions : List String

/-- The concrete `CACHE_CONFIG` value of `src/config.js`. -/
def CACHE_CONFIG : CacheConfig :=
  { enabled := true
    ttl := 3600
    cacheableExtensions := [".m3u8", ".ts", ".mp4", ".m4s", ".mpd"] }

/-- The watermark-token resolution modules imported by `index.js`;
their code is not in the sources, so they are abstract here.
`akamaiGetContentUrl` models `akamaiWmt.getContentUrl(pathname, arrUri, config)`,
`removeRevokeToken` models `wmUtil.removeRevokeToken(arrUri)` (returning the
modified segment array and the `hasRevokeToken` flag), and
`doveGetContentUrl` models
`doveRunnerAes.getContentUrl(requestPath, arrUri, prefixFolder, config, hasRevokeToken)`.
An `Except.error` models a thrown exception (caught by the handler's
`try`/`catch` and turned into a 400); an `Except.ok none` models a falsy
resolved path. -/
structure Wmt where
  akamaiGetContentUrl : String → List String → Config → Except String (Option String)
  removeRevokeToken : List String → (List String × Bool)
  doveGetContentUrl : String → List String → String → Config → Bool → Except String (Option String)

/-- `checkWatermarkPath(reqPrefixFolder)` of `index.js`: array membership
when `config.prefixFolder` is an array, string equality otherwise. -/
def checkWatermarkPath (pf : PrefixFolderCfg) (reqPrefixFolder : String) : Bool :=
  match pf with
  | .multi l => l.contains reqPrefixFolder
  | .single p => p == reqPrefixFolder

/-- `getContentType(path)` of `index.js`. -/
def getContentType (path : String) : Option String :=
  if jsEndsWith path ".m3u8" then some "application/vnd.apple.mpegurl"
  else if jsEndsWith path ".ts" then some "video/mp2t"
  else if jsEndsWith path ".mp4" then some "video/mp4"
  else if jsEndsWith path ".m4s" then some "video/iso.segment"
  else if jsEndsWith path ".mpd" then some "application/dash+xml"
  else none

/-- `isCacheable(path)` of `index.js`:
`CACHE_CONFIG.cacheableExtensions.some(ext => path.endsWith(ext))`. -/
def isCacheable (cc : CacheConfig) (path : String) : Bool :=
  cc.cacheableExtensions.any (fun ext => jsEndsWith path ext)

/-- `getCacheKey(request, finalRequestPath)` of `index.js`:
the origin authority of the incoming URL concatenated with the
resolved path (the raw pathname and query are not used). -/
def getCacheKey (request : Request) (finalRequestPath : String) : String :=
  request.url.origin ++ finalRequestPath

/-- `getFromCache(cacheKey)` of `index.js`, made pure: returns the cached
response (if any) and the list of cache keys actually looked up.  When
caching is disabled it returns `null` without touching the cache. -/
def getFromCache (cc : CacheConfig) (cache : String → Option Response)
    (cacheKey : String) : Option Response × List String :=
  if cc.enabled then (cache cacheKey, [cacheKey]) else (none, [])

/-- `storeInCache(cacheKey, response, ctx)` of `index.js`, made pure:
returns the `(key, response)` pair handed to `cache.put`, or `none` when
caching is disabled.  The stored response keeps the status and body of the
original but its `Cache-Control` header is overwritten to
`public, max-age=<ttl>`. -/
def storeInCache (cc : CacheConfig) (cacheKey : String) (response : Response) :
    Option (String × Response) :=
  if cc.enabled then
    some (cacheKey,
      { response with
        headers := response.headers.set "Cache-Control"
          ("public, max-age=" ++ toString cc.ttl) })
  else none

/-- The `r2Options` object built by `generateResponse`: `onlyIf` always
carries the request headers; `range` is set to them only when the request's
Range header is truthy (`if (rangeHeader)`). -/
def buildR2Options (reqHeaders : Headers) : R2Options :=
  { onlyIf := reqHeaders
    range := if jsTruthy (reqHeaders.get "range") then some reqHeaders else none }

/-- `generateResponse(finalRequestPath, reqHeaders, env)` of `index.js`:
fetch the object at the key (path without the leading slash) with the
conditional and range options, then translate the store result into an HTTP
response (404 / 304 / 206 / 200 with metadata headers). -/
def generateResponse (finalRequestPath : String) (reqHeaders : Headers)
    (store : String → R2Options → Option R2Obj) : Response :=
  let key := finalRequestPath.drop 1
  let rangeHeader := reqHeaders.get "range"
  match store key (buildR2Options reqHeaders) with
  | none => { status := 404, headers := Headers.empty, body := some "Object Not Found" }
  | some obj =>
    let headers0 := obj.httpMetadata.foldl (fun h p => h.set p.1 p.2) Headers.empty
    let headers1 := headers0.set "etag" obj.httpEtag
    let headers2 :=
      match getContentType key with
      | some ct => headers1.set "content-type" ct
      | none => headers1
    let headers3 := headers2.set "access-control-allow-origin" "*"
    match obj.body with
    | none => { status := 304, headers := headers3, body := none }
    | some b =>
      let status := if jsTruthy rangeHeader && obj.range.isSome then 206 else 200
      let headers4 :=
        match obj.range with
        | some rg =>
          headers3.set "content-range"
            ("bytes " ++ toString rg.offset ++ "-" ++
              toString (rg.offset + rg.length - 1) ++ "/" ++ toString obj.size)
        | none => headers3
      { status := status, headers := headers4, body := some b }

/-- Result of one run of the fetch handler: the HTTP response plus a record
of the externally observable effects and of the resolved path. -/
structure FetchResult where
  response : Response
  resolvedPath : Option String
  servedFromCache : Bool
  resolverCalled : Bool
  cacheLookups : List String
  cachePuts : List (String × Response)
  storeGets : List (String × R2Options)

/-- A `FetchResult` that performed no external effect. -/
def pureResult (response : Response) (resolverCalled : Bool) : FetchResult :=
  { response := response
    resolvedPath := none
    servedFromCache := false
    resolverCalled := resolverCalled
    cacheLookups := []
    cachePuts := []
    storeGets := [] }

/-- Lines 229-271 of `index.js`: once a truthy `finalRequestPath` is
resolved, run the cache gate (lookup only for cacheable non-range requests),
serve hits with `X-Cache-Status: HIT`, serve misses from the object store,
and store 200 responses with `X-Cache-Status: MISS`; HEAD requests get the
same headers with a null body.  `rc` records whether a resolver ran. -/
def handleResolved (cc : CacheConfig)
    (cache : String → Option Response)
    (store : String → R2Options → Option R2Obj)
    (request : Request) (finalRequestPath : String) (rc : Bool) : FetchResult :=
  let cacheKey := getCacheKey request finalRequestPath
  let hasRangeHeader := request.headers.has "range"
  let shouldCache := isCacheable cc finalRequestPath && !hasRangeHeader
  let lookup := if shouldCache then getFromCache cc cache cacheKey else (none, [])
  match lookup with
  | (some cachedResponse, lookups) =>
    let response : Response :=
      { status := cachedResponse.status
        headers := cachedResponse.headers.set "X-Cache-Status" "HIT"
        body := cachedResponse.body }
    let final := if request.method = "HEAD" then { response with body := none } else response
    { response := final
      resolvedPath := some finalRequestPath
      servedFromCache := true
      resolverCalled := rc
      cacheLookups := lookups
      cachePuts := []
      storeGets := [] }
  | (none, lookups) =>
    let response := generateResponse finalRequestPath request.headers store
    let storeGet := (finalRequestPath.drop 1, buildR2Options request.headers)
    if shouldCache && (response.status == 200) then
      let responseWithHeader :=
        { response with headers := response.headers.set "X-Cache-Status" "MISS" }
      let final :=
        if request.method = "HEAD" then { responseWithHeader with body := none }
        else responseWithHeader
      { response := final
        resolvedPath := some finalRequestPath
        servedFromCache := false
        resolverCalled := rc
        cacheLookups := lookups
        cachePuts := (storeInCache cc cacheKey response).toList
        storeGets := [storeGet] }
    else
      let final := if request.method = "HEAD" then { response with body := none } else response
      { response := final
        resolvedPath := some finalRequestPath
        servedFromCache := false
        resolverCalled := rc
        cacheLookups := lookups
        cachePuts := []
        storeGets := [storeGet] }

/-- Lines 201-227 of `index.js`: classify the first path segment and run
the matching resolver.  Returns the resolver outcome (`Except.error` models
a thrown exception, `Except.ok none` a falsy `finalRequestPath`) together
with a flag recording whether any resolver was invoked. -/
def resolveRequestPath (cfg : Config) (wmt : Wmt) (request : Request) :
    Except String (Option String) × Bool :=
  let url := request.url
  let arrUri := jsSplit '/' url.pathname
  let reqPrefixFolder := arrUri.getD 1 ""
  if jsStartsWith reqPrefixFolder "wmt:" then
    (wmt.akamaiGetContentUrl url.pathname arrUri cfg, true)
  else if checkWatermarkPath cfg.prefixFolder reqPrefixFolder then
    let rv := wmt.removeRevokeToken arrUri
    let requestPath := "/" ++ String.intercalate "/" (rv.1.drop 1)
    (wmt.doveGetContentUrl requestPath rv.1 reqPrefixFolder cfg rv.2, true)
  else (Except.ok none, false)

/-- The worker's `fetch(request, env, ctx)` handler of `index.js`.
Non-GET/HEAD methods short-circuit to a 405.  Otherwise the first path
segment picks the resolver; a thrown resolver error becomes a 400 (the
`catch` block); a falsy resolved path becomes a 404; then `handleResolved`
runs the cache gate and the store fetch. -/
def fetchHandler (cfg : Config) (cc : CacheConfig) (wmt : Wmt)
    (cache : String → Option Response)
    (store : String → R2Options → Option R2Obj)
    (request : Request) : FetchResult :=
  if request.method = "GET" ∨ request.method = "HEAD" then
    match resolveRequestPath cfg wmt request with
    | (Except.error msg, rc) =>
      pureResult { status := 400, headers := Headers.empty, body := some msg } rc
    | (Except.ok fp, rc) =>
      if jsFalsyPath fp then
        pureResult { status := 404, headers := Headers.empty, body := some "Not Found" } rc
      else
        handleResolved cc cache store request (fp.getD "") rc
  else
    pureResult
      { status := 405
        headers := Headers.empty.set "Allow" "GET, HEAD"
        body := some "Method Not Allowed" }
      false

/-! ## Shared concrete values for witnesses -/

/-- The `config` of `src/config.js` (placeholder secrets). -/
def exCfg : Config :=
  { aesKey := "site-key"
    wmType := "unlabeled_a_variant"
    availableInterval := 60000
    prefixFolder := .multi ["dldzkdpsxmdnjrtm", "wm-contents"]
    wmtPublicKey := "public-key"
    wmtPassword := "password" }

/-- Resolvers that succeed and return the stripped request path unchanged. -/
def idWmt : Wmt :=
  { akamaiGetContentUrl := fun pathname _ _ => Except.ok (some pathname)
    removeRevokeToken := fun l => (l, false)
    doveGetContentUrl := fun requestPath _ _ _ _ => Except.ok (some requestPath) }

/-- A GET request to `https://cdn.example.com` with the given pathname,
query string and headers. -/
def getReq (path : String) (search : String) (h : Headers) : Request :=
  { method := "GET"
    url := { origin := "https://cdn.example.com", pathname := path, search := search }
    headers := h }

/-- Headers carrying exactly a `Range: bytes=0-1` header. -/
def rangeHdrs : Headers := Headers.empty.set "Range" "bytes=0-1"

/-- An object store that answers every key with a full 200-style object. -/
def store200 : String → R2Options → Option R2Obj :=
  fun _ _ =>
    some { body := some "x", range := none, size := 1, httpEtag := "e1", httpMetadata := [] }

/-- The cache entry the handler hands to `cache.put` when the request
`GET /wm-contents/stream.m3u8` is served by `store200`. -/
def c2Pair : String × Response :=
  ("https://cdn.example.com/wm-contents/stream.m3u8",
    { status := 200
      headers :=
        (((Headers.empty.set "etag" "e1").set "content-type"
            "application/vnd.apple.mpegurl").set "access-control-allow-origin" "*").set
          "Cache-Control" ("public, max-age=" ++ toString CACHE_CONFIG.ttl)
      body := some "x" })

/-! ## Helper lemmas about the header map -/

theorem Headers.get_set_eq (h : Headers) (n m v : String) (hm : lowerName m = lowerName n) :
    (h.set n v).get m = some v := by
  simp [Headers.get, Headers.set, hm]

theorem Headers.get_set_ne (h : Headers) (n m v : String) (hm : lowerName m ≠ lowerName n) :
    (h.set n v).get m = h.get m := by
  simp [Headers.get, Headers.set, hm]

theorem jsTruthy_iff (o : Option String) :
    jsTruthy o = true ↔ ∃ v, o = some v ∧ v ≠ "" := by
  cases o with
  | none => simp [jsTruthy]
  | some s => simp [jsTruthy]

/-! ## Structural lemmas about the handler -/

theorem handleResolved_resolvedPath (cc : CacheConfig) (cache : String → Option Response)
    (store : String → R2Options → Option R2Obj) (request : Request) (p : String) (rc : Bool) :
    (handleResolved cc cache store request p rc).resolvedPath = some p := by
  simp only [handleResolved, getFromCache]
  split
  · split <;> rfl
  · split
    · split <;> rfl
    · split <;> rfl

/-- When the cacheability test fails, the cache gate performs no lookup and
no store. -/
theorem handleResolved_no_cache_of_not_cacheable (cc : CacheConfig)
    (cache : String → Option Response) (store : String → R2Options → Option R2Obj)
    (request : Request) (p : String) (rc : Bool)
    (hsc : (isCacheable cc p && !request.headers.has "range") = false) :
    (handleResolved cc cache store request p rc).cacheLookups = [] ∧
    (handleResolved cc cache store request p rc).cachePuts = [] := by
  simp only [handleResolved, getFromCache, hsc]
  simp

/-- Every result of the handler is either an effect-free short-circuit
response or the result of `handleResolved` on the resolved path. -/
theorem fetchHandler_cases (cfg : Config) (cc : CacheConfig) (wmt : Wmt)
    (cache : String → Option Response) (store : String → R2Options → Option R2Obj)
    (request : Request) :
    (∃ resp rc, fetchHandler cfg cc wmt cache store request = pureResult resp rc) ∨
    ∃ p rc, fetchHandler cfg cc wmt cache store request =
      handleResolved cc cache store request p rc := by
  by_cases hm : request.method = "GET" ∨ request.method = "HEAD"
  · rcases hr : resolveRequestPath cfg wmt request with ⟨res, rc⟩
    cases res with
    | error msg =>
      have heq : fetchHandler cfg cc wmt cache store request =
          pureResult { status := 400, headers := Headers.empty, body := some msg } rc := by
        unfold fetchHandler
        rw [if_pos hm, hr]
      exact Or.inl ⟨_, _, heq⟩
    | ok fp =>
      by_cases hf : jsFalsyPath fp = true
      · have heq : fetchHandler cfg cc wmt cache store request =
            pureResult { status := 404, headers := Headers.empty, body := some "Not Found" } rc := by
          unfold fetchHandler
          rw [if_pos hm, hr]
          simp [hf]
        exact Or.inl ⟨_, _, heq⟩
      · have heq : fetchHandler cfg cc wmt cache store request =
            handleResolved cc cache store request (fp.getD "") rc := by
          unfold fetchHandler
          rw [if_pos hm, hr]
          simp [hf]
        exact Or.inr ⟨_, _, heq⟩
  · have heq : fetchHandler cfg cc wmt cache store request =
        pureResult
          { status := 405
            headers := Headers.empty.set "Allow" "GET, HEAD"
            body := some "Method Not Allowed" } false := by
      unfold fetchHandler
      rw [if_neg hm]
    exact Or.inl ⟨_, _, heq⟩

/-- The cache gate only consults or populates the cache when the
cacheability predicate holds: allow-listed extension and no Range header. -/
theorem handleResolved_gate (cc : CacheConfig) (cache : String → Option Response)
    (store : String → R2Options → Option R2Obj) (request : Request) (p : String) (rc : Bool)
    (hne : (handleResolved cc cache store request p rc).cacheLookups ≠ [] ∨
           (handleResolved cc cache store request p rc).cachePuts ≠ []) :
    isCacheable cc p = true ∧ request.headers.has "range" = false := by
  cases hsc : (isCacheable cc p && !request.headers.has "range") with
  | false =>
    rcases handleResolved_no_cache_of_not_cacheable cc cache store request p rc hsc with ⟨h1, h2⟩
    rw [h1, h2] at hne
    simp at hne
  | true =>
    rw [Bool.and_eq_true] at hsc
    obtain ⟨h1, h2⟩ := hsc
    simp only [Bool.not_eq_eq_eq_not, Bool.not_true] at h2
    exact ⟨h1, by simpa using h2⟩

/-- Every entry handed to `cache.put` has status 200 and a `Cache-Control`
header overwritten to `public, max-age=<ttl>`. -/
theorem handleResolved_puts (cc : CacheConfig) (cache : String → Option Response)
    (store : String → R2Options → Option R2Obj) (request : Request) (p : String) (rc : Bool)
    (pr : String × Response)
    (hmem : pr ∈ (handleResolved cc cache store request p rc).cachePuts) :
    pr.2.status = 200 ∧
    pr.2.headers.get "Cache-Control" = some ("public, max-age=" ++ toString cc.ttl) := by
  simp only [handleResolved, getFromCache] at hmem
  split at hmem
  · simp at hmem
  · split at hmem
    · rename_i hcond
      rw [Bool.and_eq_true] at hcond
      have h200 : (generateResponse p request.headers store).status = 200 := by
        have := hcond.2
        simpa using this
      simp only [storeInCache] at hmem
      split at hmem
      · simp only [Option.toList_some, List.mem_singleton] at hmem
        subst hmem
        refine ⟨h200, ?_⟩
        exact Headers.get_set_eq _ _ _ _ rfl
      · simp at hmem
    · simp at hmem

/-- On a cacheable non-range request, a cache hit is served with
`X-Cache-Status: HIT` and an origin 200 is served with
`X-Cache-Status: MISS`. -/
theorem handleResolved_xcache (cc : CacheConfig) (cache : String → Option Response)
    (store : String → R2Options → Option R2Obj) (request : Request) (p : String) (rc : Bool)
    (hca : isCacheable cc p = true) (hnr : request.headers.has "range" = false) :
    ((handleResolved cc cache store request p rc).servedFromCache = true →
      (handleResolved cc cache store request p rc).response.headers.get "X-Cache-Status" =
        some "HIT") ∧
    ((handleResolved cc cache store request p rc).servedFromCache = false →
      (handleResolved cc cache store request p rc).response.status = 200 →
      (handleResolved cc cache store request p rc).response.headers.get "X-Cache-Status" =
        some "MISS") := by
  have hsc : (isCacheable cc p && !request.headers.has "range") = true := by
    simp [hca, hnr]
  simp only [handleResolved, getFromCache, hsc, eq_self_iff_true, if_true, Bool.true_and]
  split
  · -- cache hit arm
    refine ⟨fun _ => ?_, fun hserved => by simp at hserved⟩
    dsimp only
    split <;> exact Headers.get_set_eq _ _ _ _ rfl
  · -- cache miss arm: the result is an `if` on the origin status
    split
    · -- origin answered 200 and the response got the MISS header
      refine ⟨fun hserved => by simp at hserved, fun _ _ => ?_⟩
      dsimp only
      split <;> exact Headers.get_set_eq _ _ _ _ rfl
    · -- origin did not answer 200
      rename_i hcond
      refine ⟨fun hserved => by simp at hserved, fun _ hst => absurd ?_ hcond⟩
      simp only [beq_iff_eq]
      dsimp only at hst
      revert hst
      split <;> exact fun h => h


/-- A `pureResult` performs no effect. -/
theorem pureResult_no_effects (resp : Response) (rc : Bool) :
    (pureResult resp rc).cacheLookups = [] ∧
    (pureResult resp rc).cachePuts = [] ∧
    (pureResult resp rc).storeGets = [] ∧
    (pureResult resp rc).resolvedPath = none :=
  ⟨rfl, rfl, rfl, rfl⟩

/-! ## Claim theorems -/

/-- Claim C4: the cache key is exactly the origin authority of the incoming
request concatenated with the resolved path; hence two requests with the
same origin whose (possibly different, token-bearing) URLs resolve to the
same path get the same cache key. -/
theorem cacheKey_origin_concat_resolved (r1 r2 : Request) (p : String) :
    getCacheKey r1 p = r1.url.origin ++ p ∧
    (r1.url.origin = r2.url.origin → getCacheKey r1 p = getCacheKey r2 p) := by
  refine ⟨rfl, fun h => ?_⟩
  simp [getCacheKey, h]

/-- Claim C4 witness: two token-bearing URLs with different paths and query
strings but the same origin share the cache key of their common resolved
path. -/
theorem cacheKey_origin_concat_resolved_witness :
    getCacheKey (getReq "/wm-contents/tokA/a.m3u8" "?t=1" Headers.empty) "/wm-contents/a.m3u8" =
      (getReq "/wm-contents/tokA/a.m3u8" "?t=1" Headers.empty).url.origin ++ "/wm-contents/a.m3u8" ∧
    getCacheKey (getReq "/wm-contents/tokA/a.m3u8" "?t=1" Headers.empty) "/wm-contents/a.m3u8" =
      getCacheKey (getReq "/wm-contents/tokB/a.m3u8" "?t=2" Headers.empty) "/wm-contents/a.m3u8" :=
  ⟨(cacheKey_origin_concat_resolved (getReq "/wm-contents/tokA/a.m3u8" "?t=1" Headers.empty)
      (getReq "/wm-contents/tokB/a.m3u8" "?t=2" Headers.empty) "/wm-contents/a.m3u8").1,
   (cacheKey_origin_concat_resolved (getReq "/wm-contents/tokA/a.m3u8" "?t=1" Headers.empty)
      (getReq "/wm-contents/tokB/a.m3u8" "?t=2" Headers.empty) "/wm-contents/a.m3u8").2 rfl⟩

/-- Claim C5: the store options always pass the request headers through as
the conditional `onlyIf` option, and carry a `range` option exactly when the
incoming request carries a Range header with a non-empty value (the JS
truthiness test the code uses; a valid HTTP Range header is never empty). -/
theorem r2Options_range_iff_range_header (h : Headers) :
    (buildR2Options h).onlyIf = h ∧
    ((buildR2Options h).range = some h ↔ ∃ v, h.get "range" = some v ∧ v ≠ "") := by
  refine ⟨rfl, ?_⟩
  unfold buildR2Options
  cases hr : h.get "range" with
  | none => simp [hr, jsTruthy]
  | some s =>
    by_cases hs : s = ""
    · subst hs; simp [hr, jsTruthy]
    · simp [hr, hs, jsTruthy]

/-- Claim C5 witness: with a concrete `Range: bytes=0-1` header the range
option is passed (and it is the request headers themselves). -/
theorem r2Options_range_iff_range_header_witness :
    (buildR2Options rangeHdrs).onlyIf = rangeHdrs ∧
    (buildR2Options rangeHdrs).range = some rangeHdrs :=
  ⟨(r2Options_range_iff_range_header rangeHdrs).1,
   (r2Options_range_iff_range_header rangeHdrs).2.mpr
     ⟨"bytes=0-1", by decide, by decide⟩⟩

/-- Claim C10: when the incoming request carries no Range header, no range
option is passed to the object store and the content fetcher never answers
206 (whatever the store returns). -/
theorem no_range_header_never_206 (p : String) (h : Headers)
    (store : String → R2Options → Option R2Obj)
    (hno : h.get "range" = none) :
    (buildR2Options h).range = none ∧
    (generateResponse p h store).status ≠ 206 := by
  constructor
  · unfold buildR2Options
    rw [hno]
    rfl
  · simp only [generateResponse]
    rw [hno]
    split
    · simp
    · split
      · simp
      · simp [jsTruthy]

/-- Claim C10 witness: a concrete request without Range header, against a
store that would happily return a range, still gets a 200. -/
theorem no_range_header_never_206_witness :
    (buildR2Options Headers.empty).range = none ∧
    (generateResponse "/wm-contents/a.ts" Headers.empty
      (fun _ _ => some { body := some "seg", range := some { offset := 0, length := 3 },
                         size := 3, httpEtag := "e1", httpMetadata := [] })).status ≠ 206 :=
  no_range_header_never_206 "/wm-contents/a.ts" Headers.empty
    (fun _ _ => some { body := some "seg", range := some { offset := 0, length := 3 },
                       size := 3, httpEtag := "e1", httpMetadata := [] })
    (by decide)

/-- Claim C8: any request whose method is neither GET nor HEAD is rejected
with a 405 carrying `Allow: GET, HEAD`, and no resolver, cache or object
store access happens. -/
theorem non_get_head_is_405 (cfg : Config) (cc : CacheConfig) (wmt : Wmt)
    (cache : String → Option Response) (store : String → R2Options → Option R2Obj)
    (request : Request)
    (hg : request.method ≠ "GET") (hh : request.method ≠ "HEAD") :
    (fetchHandler cfg cc wmt cache store request).response.status = 405 ∧
    (fetchHandler cfg cc wmt cache store request).response.headers.get "Allow" =
      some "GET, HEAD" ∧
    (fetchHandler cfg cc wmt cache store request).resolverCalled = false ∧
    (fetchHandler cfg cc wmt cache store request).cacheLookups = [] ∧
    (fetchHandler cfg cc wmt cache store request).cachePuts = [] ∧
    (fetchHandler cfg cc wmt cache store request).storeGets = [] := by
  have hcond : ¬(request.method = "GET" ∨ request.method = "HEAD") := by
    simp [hg, hh]
  unfold fetchHandler
  rw [if_neg hcond]
  refine ⟨rfl, ?_, rfl, rfl, rfl, rfl⟩
  exact Headers.get_set_eq _ _ _ _ rfl

/-- Claim C8 witness: a POST request is answered 405 with `Allow: GET, HEAD`
and without any effect. -/
theorem non_get_head_is_405_witness :
    (fetchHandler exCfg CACHE_CONFIG idWmt (fun _ => none) (fun _ _ => none)
      { method := "POST"
        url := { origin := "https://cdn.example.com", pathname := "/wm-contents/a.m3u8", search := "" }
        headers := Headers.empty }).response.status = 405 ∧
    (fetchHandler exCfg CACHE_CONFIG idWmt (fun _ => none) (fun _ _ => none)
      { method := "POST"
        url := { origin := "https://cdn.example.com", pathname := "/wm-contents/a.m3u8", search := "" }
        headers := Headers.empty }).response.headers.get "Allow" = some "GET, HEAD" ∧
    (fetchHandler exCfg CACHE_CONFIG idWmt (fun _ => none) (fun _ _ => none)
      { method := "POST"
        url := { origin := "https://cdn.example.com", pathname := "/wm-contents/a.m3u8", search := "" }
        headers := Headers.empty }).resolverCalled = false ∧
    (fetchHandler exCfg CACHE_CONFIG idWmt (fun _ => none) (fun _ _ => none)
      { method := "POST"
        url := { origin := "https://cdn.example.com", pathname := "/wm-contents/a.m3u8", search := "" }
        headers := Headers.empty }).cacheLookups = [] ∧
    (fetchHandler exCfg CACHE_CONFIG idWmt (fun _ => none) (fun _ _ => none)
      { method := "POST"
        url := { origin := "https://cdn.example.com", pathname := "/wm-contents/a.m3u8", search := "" }
        headers := Headers.empty }).cachePuts = [] ∧
    (fetchHandler exCfg CACHE_CONFIG idWmt (fun _ => none) (fun _ _ => none)
      { method := "POST"
        url := { origin := "https://cdn.example.com", pathname := "/wm-contents/a.m3u8", search := "" }
        headers := Headers.empty }).storeGets = [] :=
  non_get_head_is_405 exCfg CACHE_CONFIG idWmt (fun _ => none) (fun _ _ => none)
    { method := "POST"
      url := { origin := "https://cdn.example.com", pathname := "/wm-contents/a.m3u8", search := "" }
      headers := Headers.empty }
    (by decide) (by decide)

/-- Claim C1: the cache is consulted or populated only when the resolved
path has an extension in the configured allow-list (`.m3u8`, `.ts`, `.mp4`,
`.m4s`, `.mpd`) and the request carries no Range header; a request with a
Range header never triggers a cache lookup or store. -/
theorem cache_gated_on_cacheability (cfg : Config) (cc : CacheConfig) (wmt : Wmt)
    (cache : String → Option Response) (store : String → R2Options → Option R2Obj)
    (request : Request) :
    CACHE_CONFIG.cacheableExtensions = [".m3u8", ".ts", ".mp4", ".m4s", ".mpd"] ∧
    (((fetchHandler cfg cc wmt cache store request).cacheLookups ≠ [] ∨
      (fetchHandler cfg cc wmt cache store request).cachePuts ≠ []) →
      (∃ p, (fetchHandler cfg cc wmt cache store request).resolvedPath = some p ∧
        isCacheable cc p = true) ∧
      request.headers.has "range" = false) ∧
    (request.headers.has "range" = true →
      (fetchHandler cfg cc wmt cache store request).cacheLookups = [] ∧
      (fetchHandler cfg cc wmt cache store request).cachePuts = []) := by
  refine ⟨rfl, ?_, ?_⟩
  · intro hne
    rcases fetchHandler_cases cfg cc wmt cache store request with ⟨resp, rc, heq⟩ | ⟨p, rc, heq⟩
    · rw [heq] at hne
      simp [pureResult] at hne
    · rw [heq] at hne ⊢
      have hg := handleResolved_gate cc cache store request p rc hne
      exact ⟨⟨p, handleResolved_resolvedPath cc cache store request p rc, hg.1⟩, hg.2⟩
  · intro hr
    rcases fetchHandler_cases cfg cc wmt cache store request with ⟨resp, rc, heq⟩ | ⟨p, rc, heq⟩
    · rw [heq]
      exact ⟨rfl, rfl⟩
    · rw [heq]
      exact handleResolved_no_cache_of_not_cacheable cc cache store request p rc (by simp [hr])

/-- Claim C1 witness: a cacheable non-range request does consult the cache
and its resolved path is allow-listed. -/
theorem cache_gated_on_cacheability_witness :
    (∃ p, (fetchHandler exCfg CACHE_CONFIG idWmt (fun _ => none) (fun _ _ => none)
        (getReq "/wm-contents/stream.m3u8" "" Headers.empty)).resolvedPath = some p ∧
      isCacheable CACHE_CONFIG p = true) ∧
    (getReq "/wm-contents/stream.m3u8" "" Headers.empty).headers.has "range" = false :=
  (cache_gated_on_cacheability exCfg CACHE_CONFIG idWmt (fun _ => none) (fun _ _ => none)
    (getReq "/wm-contents/stream.m3u8" "" Headers.empty)).2.1 (Or.inl (by decide))

/-- Claim C2: every entry handed to `cache.put` has status 200 (so 206, 304
and error responses are never stored) and carries a `Cache-Control` header
overwritten to exactly `public, max-age=<ttl>` with the configured TTL. -/
theorem cache_entries_status200_cache_control (cfg : Config) (cc : CacheConfig) (wmt : Wmt)
    (cache : String → Option Response) (store : String → R2Options → Option R2Obj)
    (request : Request) (pr : String × Response)
    (hmem : pr ∈ (fetchHandler cfg cc wmt cache store request).cachePuts) :
    pr.2.status = 200 ∧
    pr.2.headers.get "Cache-Control" = some ("public, max-age=" ++ toString cc.ttl) := by
  rcases fetchHandler_cases cfg cc wmt cache store request with ⟨resp, rc, heq⟩ | ⟨p, rc, heq⟩
  · rw [heq] at hmem
    simp [pureResult] at hmem
  · rw [heq] at hmem
    exact handleResolved_puts cc cache store request p rc pr hmem

/-- Claim C2 witness: the entry stored for a 200 origin response has status
200 and the overwritten `Cache-Control: public, max-age=3600`. -/
theorem cache_entries_status200_cache_control_witness :
    c2Pair.2.status = 200 ∧
    c2Pair.2.headers.get "Cache-Control" =
      some ("public, max-age=" ++ toString CACHE_CONFIG.ttl) :=
  cache_entries_status200_cache_control exCfg CACHE_CONFIG idWmt (fun _ => none) store200
    (getReq "/wm-contents/stream.m3u8" "" Headers.empty) c2Pair (List.Mem.head _)

/-- Claim C3 counterexample: a request on a cacheable path (allow-listed
extension, no Range header) that misses the cache and whose origin fetch
returns 404 is answered without any `X-Cache-Status` header, while the
claim requires `MISS` on every cacheable path not served from cache. -/
theorem xcache_counterexample :
    isCacheable CACHE_CONFIG "/wm-contents/stream.m3u8" = true ∧
    (getReq "/wm-contents/stream.m3u8" "" Headers.empty).headers.has "range" = false ∧
    (fetchHandler exCfg CACHE_CONFIG idWmt (fun _ => none) (fun _ _ => none)
      (getReq "/wm-contents/stream.m3u8" "" Headers.empty)).resolvedPath =
      some "/wm-contents/stream.m3u8" ∧
    (fetchHandler exCfg CACHE_CONFIG idWmt (fun _ => none) (fun _ _ => none)
      (getReq "/wm-contents/stream.m3u8" "" Headers.empty)).servedFromCache = false ∧
    (fetchHandler exCfg CACHE_CONFIG idWmt (fun _ => none) (fun _ _ => none)
      (getReq "/wm-contents/stream.m3u8" "" Headers.empty)).response.status = 404 ∧
    (fetchHandler exCfg CACHE_CONFIG idWmt (fun _ => none) (fun _ _ => none)
      (getReq "/wm-contents/stream.m3u8" "" Headers.empty)).response.headers.get
      "X-Cache-Status" = none := by
  decide

/-- Claim C3 (amended): on a request whose resolved path is cacheable
(allow-listed extension, no Range header), a response served from cache
carries `X-Cache-Status: HIT`, and a response fetched from the origin with
status 200 carries `X-Cache-Status: MISS`; non-200 origin responses carry
no such header (see the counterexample). -/
theorem xcache_status_amended (cfg : Config) (cc : CacheConfig) (wmt : Wmt)
    (cache : String → Option Response) (store : String → R2Options → Option R2Obj)
    (request : Request) (p : String)
    (hres : (fetchHandler cfg cc wmt cache store request).resolvedPath = some p)
    (hca : isCacheable cc p = true)
    (hnr : request.headers.has "range" = false) :
    ((fetchHandler cfg cc wmt cache store request).servedFromCache = true →
      (fetchHandler cfg cc wmt cache store request).response.headers.get "X-Cache-Status" =
        some "HIT") ∧
    ((fetchHandler cfg cc wmt cache store request).servedFromCache = false →
      (fetchHandler cfg cc wmt cache store request).response.status = 200 →
      (fetchHandler cfg cc wmt cache store request).response.headers.get "X-Cache-Status" =
        some "MISS") := by
  rcases fetchHandler_cases cfg cc wmt cache store request with ⟨resp, rc, heq⟩ | ⟨q, rc, heq⟩
  · rw [heq] at hres
    simp [pureResult] at hres
  · rw [heq] at hres ⊢
    have hq : q = p := by
      rw [handleResolved_resolvedPath cc cache store request q rc] at hres
      exact Option.some.inj hres
    rw [hq]
    exact handleResolved_xcache cc cache store request p rc hca hnr

/-- Claim C3 (amended) witness: a cache miss answered 200 by the origin
carries `X-Cache-Status: MISS`. -/
theorem xcache_status_amended_witness :
    (fetchHandler exCfg CACHE_CONFIG idWmt (fun _ => none) store200
      (getReq "/wm-contents/stream.m3u8" "" Headers.empty)).response.headers.get
      "X-Cache-Status" = some "MISS" :=
  (xcache_status_amended exCfg CACHE_CONFIG idWmt (fun _ => none) store200
    (getReq "/wm-contents/stream.m3u8" "" Headers.empty) "/wm-contents/stream.m3u8"
    (by decide) (by decide) (by decide)).2 (by decide) (by decide)

/-- Claim C6: when the request carries a (non-empty) Range header and the
store returns an object with a body and a range field, the content fetcher
answers 206 with `Content-Range: bytes <offset>-<offset+length-1>/<size>`
computed from the store-returned range and object size. -/
theorem range_honored_206_content_range (p : String) (h : Headers)
    (store : String → R2Options → Option R2Obj) (obj : R2Obj) (rg : R2Range) (b v : String)
    (hv : h.get "range" = some v) (hne : v ≠ "")
    (hstore : store (p.drop 1) (buildR2Options h) = some obj)
    (hbody : obj.body = some b) (hrg : obj.range = some rg) :
    (generateResponse p h store).status = 206 ∧
    (generateResponse p h store).headers.get "content-range" =
      some ("bytes " ++ toString rg.offset ++ "-" ++ toString (rg.offset + rg.length - 1) ++
        "/" ++ toString obj.size) := by
  have htr : jsTruthy (h.get "range") = true := by
    rw [hv]
    simp [jsTruthy, hne]
  simp only [generateResponse, hstore, hbody, hrg, htr, Option.isSome_some, Bool.and_self,
    eq_self_iff_true, if_true]
  exact ⟨trivial, Headers.get_set_eq _ _ _ _ rfl⟩

/-- Claim C6 witness: a concrete range request honored by the store yields
206 and the computed `Content-Range`. -/
theorem range_honored_206_content_range_witness :
    (generateResponse "/wm-contents/a.mp4" rangeHdrs
      (fun _ _ => some { body := some "xy", range := some { offset := 0, length := 2 },
                         size := 10, httpEtag := "e2", httpMetadata := [] })).status = 206 ∧
    (generateResponse "/wm-contents/a.mp4" rangeHdrs
      (fun _ _ => some { body := some "xy", range := some { offset := 0, length := 2 },
                         size := 10, httpEtag := "e2", httpMetadata := [] })).headers.get
      "content-range" =
      some ("bytes " ++ toString (0 : Int) ++ "-" ++ toString ((0 : Int) + 2 - 1) ++
        "/" ++ toString (10 : Int)) :=
  range_honored_206_content_range "/wm-contents/a.mp4" rangeHdrs
    (fun _ _ => some { body := some "xy", range := some { offset := 0, length := 2 },
                       size := 10, httpEtag := "e2", httpMetadata := [] })
    { body := some "xy", range := some { offset := 0, length := 2 },
      size := 10, httpEtag := "e2", httpMetadata := [] }
    { offset := 0, length := 2 } "xy" "bytes=0-1"
    (by decide) (by decide) rfl rfl rfl

/-- Claim C7: when the store satisfies a conditional match and returns an
object without a body, the content fetcher answers 304 with a null body,
the ETag from the store metadata, `Access-Control-Allow-Origin: *`, and the
extension-derived Content-Type when the extension is known. -/
theorem conditional_match_304 (p : String) (h : Headers)
    (store : String → R2Options → Option R2Obj) (obj : R2Obj)
    (hstore : store (p.drop 1) (buildR2Options h) = some obj)
    (hbody : obj.body = none) :
    (generateResponse p h store).status = 304 ∧
    (generateResponse p h store).body = none ∧
    (generateResponse p h store).headers.get "etag" = some obj.httpEtag ∧
    (generateResponse p h store).headers.get "access-control-allow-origin" = some "*" ∧
    (∀ ct, getContentType (p.drop 1) = some ct →
      (generateResponse p h store).headers.get "content-type" = some ct) := by
  cases hct : getContentType (p.drop 1) with
  | none =>
    simp only [generateResponse, hstore, hbody, hct]
    refine ⟨trivial, trivial, ?_, ?_, ?_⟩
    · rw [Headers.get_set_ne _ "access-control-allow-origin" "etag" _ (by decide)]
      exact Headers.get_set_eq _ _ _ _ rfl
    · exact Headers.get_set_eq _ _ _ _ rfl
    · intro ct hc
      exact Option.noConfusion hc
  | some ct0 =>
    simp only [generateResponse, hstore, hbody, hct]
    refine ⟨trivial, trivial, ?_, ?_, ?_⟩
    · rw [Headers.get_set_ne _ "access-control-allow-origin" "etag" _ (by decide),
        Headers.get_set_ne _ "content-type" "etag" _ (by decide)]
      exact Headers.get_set_eq _ _ _ _ rfl
    · exact Headers.get_set_eq _ _ _ _ rfl
    · intro ct hc
      injection hc with hc'
      subst hc'
      rw [Headers.get_set_ne _ "access-control-allow-origin" "content-type" _ (by decide)]
      exact Headers.get_set_eq _ _ _ _ rfl

/-- Claim C7 witness: a conditional-match store answer on an `.m3u8` key
yields a body-less 304 with ETag, CORS and Content-Type headers. -/
theorem conditional_match_304_witness :
    (generateResponse "/wm-contents/master.m3u8" Headers.empty
      (fun _ _ => some { body := none, range := none, size := 5, httpEtag := "e3",
                         httpMetadata := [] })).status = 304 ∧
    (generateResponse "/wm-contents/master.m3u8" Headers.empty
      (fun _ _ => some { body := none, range := none, size := 5, httpEtag := "e3",
                         httpMetadata := [] })).body = none ∧
    (generateResponse "/wm-contents/master.m3u8" Headers.empty
      (fun _ _ => some { body := none, range := none, size := 5, httpEtag := "e3",
                         httpMetadata := [] })).headers.get "etag" =
      some ({ body := none, range := none, size := 5, httpEtag := "e3",
              httpMetadata := ([] : List (String × String)) } : R2Obj).httpEtag ∧
    (generateResponse "/wm-contents/master.m3u8" Headers.empty
      (fun _ _ => some { body := none, range := none, size := 5, httpEtag := "e3",
                         httpMetadata := [] })).headers.get "access-control-allow-origin" =
      some "*" ∧
    (generateResponse "/wm-contents/master.m3u8" Headers.empty
      (fun _ _ => some { body := none, range := none, size := 5, httpEtag := "e3",
                         httpMetadata := [] })).headers.get "content-type" =
      some "application/vnd.apple.mpegurl" := by
  have h := conditional_match_304 "/wm-contents/master.m3u8" Headers.empty
    (fun _ _ => some { body := none, range := none, size := 5, httpEtag := "e3",
                       httpMetadata := [] })
    { body := none, range := none, size := 5, httpEtag := "e3", httpMetadata := [] }
    rfl rfl
  exact ⟨h.1, h.2.1, h.2.2.1, h.2.2.2.1,
    h.2.2.2.2 "application/vnd.apple.mpegurl" (by decide)⟩

/-- When the first path segment is neither a `wmt:` token nor a configured
prefix folder, no resolver runs and the resolution result is falsy. -/
theorem resolveRequestPath_unroutable (cfg : Config) (wmt : Wmt) (request : Request)
    (folders : List String)
    (hpf : cfg.prefixFolder = PrefixFolderCfg.multi folders)
    (hwmt : jsStartsWith ((jsSplit '/' request.url.pathname).getD 1 "") "wmt:" = false)
    (hmem : folders.contains ((jsSplit '/' request.url.pathname).getD 1 "") = false) :
    resolveRequestPath cfg wmt request = (Except.ok none, false) := by
  simp only [resolveRequestPath, hpf, checkWatermarkPath, hwmt, hmem]
  simp

/-- Claim C9: a GET/HEAD request whose first path segment neither starts
with `wmt:` nor equals a configured prefix folder is answered 404 without
any cache access, store access, or resolver invocation. -/
theorem unroutable_first_segment_404 (cfg : Config) (cc : CacheConfig) (wmt : Wmt)
    (cache : String → Option Response) (store : String → R2Options → Option R2Obj)
    (request : Request) (folders : List String)
    (hm : request.method = "GET" ∨ request.method = "HEAD")
    (hpf : cfg.prefixFolder = PrefixFolderCfg.multi folders)
    (hwmt : jsStartsWith ((jsSplit '/' request.url.pathname).getD 1 "") "wmt:" = false)
    (hmem : folders.contains ((jsSplit '/' request.url.pathname).getD 1 "") = false) :
    (fetchHandler cfg cc wmt cache store request).response.status = 404 ∧
    (fetchHandler cfg cc wmt cache store request).cacheLookups = [] ∧
    (fetchHandler cfg cc wmt cache store request).cachePuts = [] ∧
    (fetchHandler cfg cc wmt cache store request).storeGets = [] ∧
    (fetchHandler cfg cc wmt cache store request).resolverCalled = false := by
  have hr := resolveRequestPath_unroutable cfg wmt request folders hpf hwmt hmem
  unfold fetchHandler
  rw [if_pos hm, hr]
  exact ⟨rfl, rfl, rfl, rfl, rfl⟩

/-- Claim C9 witness: `GET /unknown/a.m3u8` against the configured prefix
folders is a 404 with no effects. -/
theorem unroutable_first_segment_404_witness :
    (fetchHandler exCfg CACHE_CONFIG idWmt (fun _ => none) (fun _ _ => none)
      (getReq "/unknown/a.m3u8" "" Headers.empty)).response.status = 404 ∧
    (fetchHandler exCfg CACHE_CONFIG idWmt (fun _ => none) (fun _ _ => none)
      (getReq "/unknown/a.m3u8" "" Headers.empty)).cacheLookups = [] ∧
    (fetchHandler exCfg CACHE_CONFIG idWmt (fun _ => none) (fun _ _ => none)
      (getReq "/unknown/a.m3u8" "" Headers.empty)).cachePuts = [] ∧
    (fetchHandler exCfg CACHE_CONFIG idWmt (fun _ => none) (fun _ _ => none)
      (getReq "/unknown/a.m3u8" "" Headers.empty)).storeGets = [] ∧
    (fetchHandler exCfg CACHE_CONFIG idWmt (fun _ => none) (fun _ _ => none)
      (getReq "/unknown/a.m3u8" "" Headers.empty)).resolverCalled = false :=
  unroutable_first_segment_404 exCfg CACHE_CONFIG idWmt (fun _ => none) (fun _ _ => none)
    (getReq "/unknown/a.m3u8" "" Headers.empty) ["dldzkdpsxmdnjrtm", "wm-contents"]
    (Or.inl rfl) rfl (by decide) (by decide)

end FwmEmbedder
